import Mathlib

/-!
Verification development for the workflow-agent service (src/main.py).

The file shallowly embeds the two components of the service:

* the persistent execution context `GLOBAL_CONTEXT` — an insertion-ordered
  mapping from identifier strings to Python values — together with the
  endpoint handlers `run_cell`, `run_all`, `list_variables`,
  `reset_context`, `delete_var` and `set_var`;
* the session manager `get_srv` with its module-level `_srv_instance`
  reference, modelled as an explicit state machine driven by an
  environment that decides the outcome of each construct / connect /
  probe call against the external resource.

Submitted Python snippets are represented by a small statement language
(assignments, expression statements, prints, raises) whose semantics
mirrors `exec` against the shared mapping: statements run in order,
assignments mutate the mapping, the first raised error aborts the rest.
-/

set_option autoImplicit false

namespace WorkflowAgent

/-- A Python exception value, reduced to the two fields the service ever
inspects: the class name (`type(e).__name__`) and the message (`str(e)`). -/
structure PyErr where
  kind : String
  msg : String
deriving DecidableEq, Repr

/-- Python runtime values, to the granularity the service observes them:
numbers, strings, booleans, module namespaces (`gap`, `resolve`), class
objects (`PetexServer`), live server handles (identified by the number of
the construction attempt that produced them), plain callables, and opaque
objects carrying a type name and the result of `str(...)` on them
(`none` models a `__str__` that raises). -/
inductive PyVal where
  | int (n : Int)
  | float (q : Rat)
  | bool (b : Bool)
  | str (s : String)
  | module (name : String)
  | cls (name : String)
  | handle (id : Nat)
  | func (name : String)
  | obj (typeName : String) (strOk : Option String)
deriving DecidableEq, Repr

/-- `callable(v)` for the embedded values: functions and classes are
callable, data values, modules, opaque objects and server handles are not. -/
def isCallable : PyVal → Bool
  | .func _ => true
  | .cls _ => true
  | _ => false

/-- `isinstance(v, type)`: true exactly for class objects. -/
def isTypeVal : PyVal → Bool
  | .cls _ => true
  | _ => false

/-- `type(v).__name__`. -/
def pyTypeName : PyVal → String
  | .int _ => "int"
  | .float _ => "float"
  | .bool _ => "bool"
  | .str _ => "str"
  | .module _ => "module"
  | .cls _ => "type"
  | .handle _ => "PetexServer"
  | .func _ => "function"
  | .obj t _ => t

/-- Decimal rendering of a rational standing in for a Python float.
Exact float repr formatting is abstracted; no claim inspects it. -/
def ratRepr (q : Rat) : String :=
  if q.den = 1 then toString q.num ++ ".0"
  else toString q.num ++ "/" ++ toString q.den

/-- `str(v)`. Returns `.error` when the value's `__str__` raises, which
only opaque objects can do in this model. -/
def pyStr : PyVal → Except PyErr String
  | .int n => .ok (toString n)
  | .float q => .ok (ratRepr q)
  | .bool b => .ok (if b then "True" else "False")
  | .str s => .ok s
  | .module n => .ok ("<module " ++ n ++ ">")
  | .cls n => .ok ("<class " ++ n ++ ">")
  | .handle id => .ok ("<PetexServer object " ++ toString id ++ ">")
  | .func n => .ok ("<function " ++ n ++ ">")
  | .obj t so =>
      match so with
      | some s => .ok s
      | none => .error ⟨"RuntimeError", "str raised for " ++ t⟩

/-- Python slicing `s[:n]`: the first `n` characters of the string. -/
def pySlice (s : String) (n : Nat) : String :=
  String.mk (s.data.take n)

/-- Python `k.startswith("__")`: the first two characters are
underscores. (Defined over the character list so it evaluates inside the
kernel.) -/
def startsDunder (k : String) : Bool :=
  match k.data with
  | c1 :: c2 :: _ => c1 = '_' && c2 = '_'
  | _ => false

/-- Python `s.strip()` for the whitespace around numeric literals. -/
def pyStrip (s : String) : String :=
  String.mk
    (((s.data.dropWhile Char.isWhitespace).reverse.dropWhile
        Char.isWhitespace).reverse)

/-- Python `s.lower()` restricted to ASCII, which is all the service
compares against. -/
def pyLower (s : String) : String :=
  String.mk (s.data.map fun c =>
    if 'A' ≤ c ∧ c ≤ 'Z' then Char.ofNat (c.toNat + 32) else c)

/-- Equality of `Except` results is decidable when both components are;
spelled out because the core library does not derive it. -/
def exceptDecEq {ε α : Type} [DecidableEq ε] [DecidableEq α] :
    (a b : Except ε α) → Decidable (a = b)
  | .ok x, .ok y =>
      if h : x = y then .isTrue (congrArg Except.ok h)
      else .isFalse (fun hc => h (Except.ok.inj hc))
  | .error x, .error y =>
      if h : x = y then .isTrue (congrArg Except.error h)
      else .isFalse (fun hc => h (Except.error.inj hc))
  | .ok _, .error _ => .isFalse (fun hc => Except.noConfusion hc)
  | .error _, .ok _ => .isFalse (fun hc => Except.noConfusion hc)

instance {ε α : Type} [DecidableEq ε] [DecidableEq α] :
    DecidableEq (Except ε α) :=
  exceptDecEq

/-- The shared mapping `GLOBAL_CONTEXT`: an insertion-ordered association
list with unique keys, the shallow model of a Python dict. -/
abbrev Ctx := List (String × PyVal)

/-- Dict lookup `ctx[n]` / `n in ctx`. -/
def ctxLookup : Ctx → String → Option PyVal
  | [], _ => none
  | (k, v) :: rest, n => if k = n then some v else ctxLookup rest n

/-- Dict assignment `ctx[n] = v`: update in place when the key exists,
append at the end otherwise (Python dicts preserve insertion order). -/
def ctxInsert : Ctx → String → PyVal → Ctx
  | [], n, v => [(n, v)]
  | (k, w) :: rest, n, v =>
      if k = n then (n, v) :: rest else (k, w) :: ctxInsert rest n v

/-- Dict deletion `del ctx[n]`. -/
def ctxErase : Ctx → String → Ctx
  | [], _ => []
  | (k, v) :: rest, n =>
      if k = n then ctxErase rest n else (k, v) :: ctxErase rest n

/-- The initial `GLOBAL_CONTEXT` literal (src/main.py, lines 54-59): the
two library namespaces and the handle class; `srv` is injected later,
per execution. -/
def initCtx : Ctx :=
  [("gap", .module "petex_client.gap"),
   ("resolve", .module "petex_client.resolve"),
   ("PetexServer", .cls "PetexServer")]

/-- The value `exec` binds to `__builtins__` in the globals dict as a side
effect of running a snippet. -/
def builtinsVal : PyVal := .module "builtins"

/-! ## Submitted snippets: a small statement language run by `exec`

A submitted code text is represented by its parsed form: a list of
top-level statements over a small expression language, enough to express
the snippets the service's contract is stated over (assignments,
arithmetic including division by zero, name lookups, prints, raises). -/

/-- Expressions of submitted snippets. -/
inductive Expr where
  | lit (v : PyVal)
  | var (n : String)
  | add (a b : Expr)
  | div (a b : Expr)
deriving DecidableEq, Repr

/-- Top-level statements of submitted snippets. -/
inductive Stmt where
  | assign (n : String) (e : Expr)
  | exprStmt (e : Expr)
  | printLn (e : Expr)
  | raiseErr (kind msg : String)
deriving DecidableEq, Repr

/-- Expression evaluation against the shared mapping. Division follows
Python `/`: a true-division producing a float, raising
`ZeroDivisionError` on a zero denominator. -/
def evalExpr (ctx : Ctx) : Expr → Except PyErr PyVal
  | .lit v => .ok v
  | .var n =>
      match ctxLookup ctx n with
      | some v => .ok v
      | none => .error ⟨"NameError", "name " ++ n ++ " is not defined"⟩
  | .add a b =>
      match evalExpr ctx a with
      | .error e => .error e
      | .ok va =>
          match evalExpr ctx b with
          | .error e => .error e
          | .ok vb =>
              match va, vb with
              | .int x, .int y => .ok (.int (x + y))
              | _, _ => .error ⟨"TypeError", "unsupported operand type for +"⟩
  | .div a b =>
      match evalExpr ctx a with
      | .error e => .error e
      | .ok va =>
          match evalExpr ctx b with
          | .error e => .error e
          | .ok vb =>
              match va, vb with
              | .int x, .int y =>
                  if y = 0 then .error ⟨"ZeroDivisionError", "division by zero"⟩
                  else .ok (.float ((x : Rat) / (y : Rat)))
              | _, _ => .error ⟨"TypeError", "unsupported operand type for div"⟩

/-- The running state of one request's evaluation: the shared mapping plus
the two accumulating output sinks (`stdout_buf`, `stderr_buf`). -/
structure EvalSt where
  ctx : Ctx
  out : String
  err : String
deriving DecidableEq, Repr

/-- One statement: assignments mutate the mapping, `print` appends to the
stdout sink, a raise (or a raising expression) yields the error without
touching the state. -/
def execStmt (st : EvalSt) : Stmt → Except PyErr EvalSt
  | .assign n e =>
      match evalExpr st.ctx e with
      | .error er => .error er
      | .ok v => .ok { st with ctx := ctxInsert st.ctx n v }
  | .exprStmt e =>
      match evalExpr st.ctx e with
      | .error er => .error er
      | .ok _ => .ok st
  | .printLn e =>
      match evalExpr st.ctx e with
      | .error er => .error er
      | .ok v =>
          match pyStr v with
          | .error er => .error er
          | .ok s => .ok { st with out := st.out ++ s ++ "\n" }
  | .raiseErr kind msg => .error ⟨kind, msg⟩

/-- Statements in order; the first error stops execution and is returned
beside the state reached at the failure point. -/
def execStmts (st : EvalSt) : List Stmt → EvalSt × Option PyErr
  | [] => (st, none)
  | s :: rest =>
      match execStmt st s with
      | .error e => (st, some e)
      | .ok st' => execStmts st' rest

/-- One `exec(code, GLOBAL_CONTEXT)` call: binds `__builtins__` into the
globals dict, then runs the snippet's statements. -/
def execCode (st : EvalSt) (prog : List Stmt) : EvalSt × Option PyErr :=
  execStmts { st with ctx := ctxInsert st.ctx "__builtins__" builtinsVal } prog

/-- The error line `f"{type(e).__name__}: {e}\n"` written to the stderr
sink by the handlers' except blocks. -/
def fmtErr (e : PyErr) : String :=
  e.kind ++ ": " ++ e.msg ++ "\n"

/-- The `try: exec(...) except Exception as e: stderr_buf.write(...)` body
shared by `run_cell`: always returns; a raised error becomes one formatted
line appended to the stderr sink. -/
def evaluate (ctx : Ctx) (prog : List Stmt) : EvalSt :=
  match execCode ⟨ctx, "", ""⟩ prog with
  | (st, none) => st
  | (st, some e) => { st with err := st.err ++ fmtErr e }

/-- `for code in cells: exec(code, GLOBAL_CONTEXT)` — each cell is a
separate `exec` call; the first error aborts the remaining cells. -/
def execCells (st : EvalSt) : List (List Stmt) → EvalSt × Option PyErr
  | [] => (st, none)
  | c :: cs =>
      match execCode st c with
      | (st', none) => execCells st' cs
      | (st', some e) => (st', some e)

/-- The try/except body of `run_all`: the cell loop with the same
error-to-stderr-line recovery as `evaluate`. -/
def evaluateSeq (ctx : Ctx) (cells : List (List Stmt)) : EvalSt :=
  match execCells ⟨ctx, "", ""⟩ cells with
  | (st, none) => st
  | (st, some e) => { st with err := st.err ++ fmtErr e }

/-! ## The session manager `get_srv`

`get_srv` keeps a module-level `_srv_instance` (zero-or-one handle) and
on each call either probes the existing handle or constructs a new one,
falling into a shared recovery block on any failure. The outcomes of the
external calls — `PetexServer()` construction, `__enter__` connection,
the `GetTypeInfoCount` probe — are decided by an environment indexed by
the global construction-attempt counter (construction attempt number `a`
yields, on success, the handle with id `a`). -/

/-- Outcomes of the external COM calls, per construction attempt / handle. -/
structure SrvEnv where
  constructFails : Nat → Bool
  enterFails : Nat → Bool
  probeFails : Nat → Bool

/-- The manager's state: the construction-attempt counter (a modelling
device numbering handles) and the `_srv_instance` reference. -/
structure SrvState where
  attempt : Nat
  inst : Option Nat
deriving DecidableEq, Repr

/-- Observable side effects of one `get_srv` call: which construction
attempts were made and which handles had `close()` called on them. -/
structure SrvTrace where
  constructs : List Nat
  closes : List Nat
deriving DecidableEq, Repr

/-- The error raised when `PetexServer()` construction fails. -/
def constructErr : PyErr := ⟨"Exception", "PetexServer construction failed"⟩

/-- The error raised when the connection step `__enter__` fails. -/
def enterErr : PyErr := ⟨"Exception", "PetexServer enter failed"⟩

/-- The error raised when the liveness probe fails
(`Exception("COM not initialized")` or a COM call error). -/
def probeErr : PyErr := ⟨"Exception", "COM not initialized"⟩

/-- The `except` block of `get_srv` (src/main.py lines 40-48): best-effort
close of the current instance (errors discarded, the reference is NOT
cleared), then `_srv_instance = PetexServer()` followed by `__enter__()`;
a failure in either of those propagates to the caller, leaving
`_srv_instance` as the last value assigned to it. -/
def srvRecover (env : SrvEnv) (s : SrvState) (tr : SrvTrace) :
    SrvState × Except PyErr Nat × SrvTrace :=
  let tr1 : SrvTrace :=
    match s.inst with
    | some h => { tr with closes := tr.closes ++ [h] }
    | none => tr
  let a := s.attempt
  let tr2 : SrvTrace := { tr1 with constructs := tr1.constructs ++ [a] }
  let s1 : SrvState := { s with attempt := a + 1 }
  if env.constructFails a then
    (s1, .error constructErr, tr2)
  else
    let s2 : SrvState := { s1 with inst := some a }
    if env.enterFails a then (s2, .error enterErr, tr2)
    else (s2, .ok a, tr2)

/-- `get_srv` (src/main.py lines 26-50). With no instance, construct and
connect (recovering once through the except block on failure); with an
instance, run the cheap probe and return the same handle on success,
recover on failure. Returns the new manager state, the returned handle or
the propagated error, and the side-effect trace. -/
def get_srv (env : SrvEnv) (s : SrvState) :
    SrvState × Except PyErr Nat × SrvTrace :=
  match s.inst with
  | none =>
      let a := s.attempt
      let tr : SrvTrace := ⟨[a], []⟩
      let s1 : SrvState := { s with attempt := a + 1 }
      if env.constructFails a then
        srvRecover env s1 tr
      else
        let s2 : SrvState := { s1 with inst := some a }
        if env.enterFails a then srvRecover env s2 tr
        else (s2, .ok a, tr)
  | some h =>
      if env.probeFails h then srvRecover env s ⟨[], []⟩
      else (s, .ok h, ⟨[], []⟩)

/-! ## Snapshots and endpoint handlers -/

/-- One entry of a `variables` map: `{"type": ..., "preview": ...}`. -/
structure VarEntry where
  type : String
  preview : String
deriving DecidableEq, Repr

/-- The reserved names excluded from every snapshot
(`{"gap", "resolve", "PetexServer", "srv"}`). -/
def reservedNames : List String := ["gap", "resolve", "PetexServer", "srv"]

/-- The shared inclusion condition of all three snapshot shapes: not a
dunder name, not callable, not a class object, not reserved. -/
def snapIncluded (k : String) (v : PyVal) : Bool :=
  !(startsDunder k) && !(isCallable v) && !(isTypeVal v)
    && !(reservedNames.contains k)

/-- The `vars_snapshot` dict comprehension of `run_cell` / `run_all`
(src/main.py lines 82-89 and 113-120): previews are `str(v)[:50]`, and
there is no per-entry recovery — a `str` that raises propagates and
aborts the whole comprehension (hence the whole request). -/
def snapshotCell : Ctx → Except PyErr (List (String × VarEntry))
  | [] => .ok []
  | (k, v) :: rest =>
      if snapIncluded k v then
        match pyStr v with
        | .error e => .error e
        | .ok s =>
            match snapshotCell rest with
            | .error e => .error e
            | .ok tail => .ok ((k, ⟨pyTypeName v, pySlice s 50⟩) :: tail)
      else snapshotCell rest

/-- The `list_variables` loop (src/main.py lines 129-152): previews longer
than 80 characters become the first 77 characters plus "...", and a
per-entry try/except substitutes `{"type": "unknown", "preview": ""}`
when rendering raises. -/
def snapshotList : Ctx → List (String × VarEntry)
  | [] => []
  | (k, v) :: rest =>
      if snapIncluded k v then
        let entry : VarEntry :=
          match pyStr v with
          | .ok s =>
              ⟨pyTypeName v, if s.length > 80 then pySlice s 77 ++ "..." else s⟩
          | .error _ => ⟨"unknown", ""⟩
        (k, entry) :: snapshotList rest
      else snapshotList rest

/-- The JSON body returned by `run_cell` and `run_all` on success. -/
structure CellResponse where
  stdout : String
  stderr : String
  vars : List (String × VarEntry)
deriving DecidableEq, Repr

/-- The `/run_cell/` handler (src/main.py lines 68-95): acquire a handle
(an acquisition error is caught by the same except block as a user-code
error and becomes a stderr line, with `GLOBAL_CONTEXT["srv"]` left
unassigned), run the snippet, then snapshot. The snapshot runs outside
the try block, so its errors propagate (a 500 response). Returns the new
manager state, the new mapping, and the response or propagated error. -/
def run_cell (env : SrvEnv) (S : SrvState) (ctx : Ctx) (code : List Stmt) :
    SrvState × Ctx × Except PyErr CellResponse :=
  match get_srv env S with
  | (S', .error e, _) =>
      match snapshotCell ctx with
      | .ok vars => (S', ctx, .ok ⟨"", fmtErr e, vars⟩)
      | .error e' => (S', ctx, .error e')
  | (S', .ok h, _) =>
      let st := evaluate (ctxInsert ctx "srv" (.handle h)) code
      match snapshotCell st.ctx with
      | .ok vars => (S', st.ctx, .ok ⟨st.out, st.err, vars⟩)
      | .error e' => (S', st.ctx, .error e')

/-- The `/run_all/` handler (src/main.py lines 98-126): as `run_cell`,
with an ordered list of cells run in one try block. -/
def run_all (env : SrvEnv) (S : SrvState) (ctx : Ctx)
    (cells : List (List Stmt)) :
    SrvState × Ctx × Except PyErr CellResponse :=
  match get_srv env S with
  | (S', .error e, _) =>
      match snapshotCell ctx with
      | .ok vars => (S', ctx, .ok ⟨"", fmtErr e, vars⟩)
      | .error e' => (S', ctx, .error e')
  | (S', .ok h, _) =>
      let st := evaluateSeq (ctxInsert ctx "srv" (.handle h)) cells
      match snapshotCell st.ctx with
      | .ok vars => (S', st.ctx, .ok ⟨st.out, st.err, vars⟩)
      | .error e' => (S', st.ctx, .error e')

/-- The `/reset_context/` handler (src/main.py lines 155-164):
`GLOBAL_CONTEXT.clear()` runs first, then the replacement dict literal is
built — calling `get_srv()` — and applied. If acquisition raises, the
mapping has already been cleared and the error propagates; on success the
mapping is exactly the three initial reserved bindings plus `srv`. -/
def reset_context (env : SrvEnv) (S : SrvState) (_ctx : Ctx) :
    SrvState × Ctx × Except PyErr String :=
  let cleared : Ctx := []
  match get_srv env S with
  | (S', .error e, _) => (S', cleared, .error e)
  | (S', .ok h, _) =>
      (S', initCtx ++ [("srv", .handle h)], .ok "reset")

/-- The JSON body of `/delete_var/`. -/
structure DeleteResponse where
  status : String
  deleted : Option String
deriving DecidableEq, Repr

/-- The `/delete_var/` handler (src/main.py lines 167-173): delete the
named binding when the name is truthy and present — with no reserved-name
check — and report `{"status": "ok", "deleted": name}` unconditionally.
`name` is `Option String` because `data.get("name")` yields `None` when
the field is absent; `""` is falsy like `None`. -/
def delete_var (ctx : Ctx) (name : Option String) : Ctx × DeleteResponse :=
  match name with
  | some n =>
      if n ≠ "" ∧ (ctxLookup ctx n).isSome then
        (ctxErase ctx n, ⟨"ok", some n⟩)
      else (ctx, ⟨"ok", some n⟩)
  | none => (ctx, ⟨"ok", none⟩)

/-- Python `int(s)` on a string: optional surrounding whitespace, an
optional sign, then decimal digits (digit-group underscores omitted; no
claim depends on them). `none` models the raised `ValueError`. -/
def pyIntOfString (s : String) : Option Int :=
  let digitsVal : List Char → Option Nat := fun cs =>
    if cs.isEmpty then none
    else if cs.all Char.isDigit then
      some (cs.foldl (fun n c => n * 10 + (c.toNat - 48)) 0)
    else none
  match (pyStrip s).data with
  | '-' :: rest => (digitsVal rest).map (fun n => -(n : Int))
  | '+' :: rest => (digitsVal rest).map (fun n => (n : Int))
  | cs => (digitsVal cs).map (fun n => (n : Int))

/-- Python `float(s)` on a string, to the precision needed here: optional
sign, digits with an optional fractional part (exponents and the special
forms inf/nan omitted; no claim depends on them). -/
def pyFloatOfString (s : String) : Option Rat :=
  let digitsNat : List Char → Nat := fun cs =>
    cs.foldl (fun n c => n * 10 + (c.toNat - 48)) 0
  let decimalVal : List Char → Option Rat := fun cs =>
    let intPart := cs.takeWhile Char.isDigit
    match cs.drop intPart.length with
    | [] => if intPart.isEmpty then none else some ((digitsNat intPart : Int) : Rat)
    | '.' :: frac =>
        if frac.all Char.isDigit ∧ ¬(intPart.isEmpty ∧ frac.isEmpty) then
          some (((digitsNat intPart : Int) : Rat)
            + ((digitsNat frac : Int) : Rat) / ((10 : Rat) ^ frac.length))
        else none
    | _ => none
  match (pyStrip s).data with
  | '-' :: rest => (decimalVal rest).map Neg.neg
  | '+' :: rest => decimalVal rest
  | cs => decimalVal cs

/-- The type-tag dispatch of `set_var` (src/main.py lines 184-191):
coerce the raw value to the requested kind; `bool` lower-cases and
compares against `("1", "true", "yes")`; any unknown tag falls through to
`str`. `.error` models the raised coercion exception. -/
def coerceValue (vtype : String) (value : String) : Except PyErr PyVal :=
  if vtype = "int" then
    match pyIntOfString value with
    | some n => .ok (.int n)
    | none =>
        .error ⟨"ValueError", "invalid literal for int() with base 10: " ++ value⟩
  else if vtype = "float" then
    match pyFloatOfString value with
    | some q => .ok (.float q)
    | none => .error ⟨"ValueError", "could not convert string to float: " ++ value⟩
  else if vtype = "bool" then
    .ok (.bool (["1", "true", "yes"].contains (pyLower value)))
  else .ok (.str value)

/-- What `/set_var/` produces: either the success body
`{"status": "ok", "name": ..., "value": ...}`, or a raised error. -/
inductive SetOutcome where
  | ok (name : String) (value : PyVal)
  | raised (e : PyErr)
deriving DecidableEq, Repr

/-- The error actually raised on the coercion-failure path of `set_var`:
the code does `return JSONResponse({...}, status=400)`, but
`JSONResponse.__init__` has no `status` parameter (it is `status_code`),
so building the intended error response itself raises `TypeError` before
anything is returned. -/
def statusKwErr : PyErr :=
  ⟨"TypeError", "init got an unexpected keyword argument status"⟩

/-- The `/set_var/` handler (src/main.py lines 176-196): on successful
coercion, store the binding and return the success body; on coercion
failure the mapping is untouched and the handler attempts to build the
error response with the invalid `status` keyword, raising `TypeError`
(which the app-level handler turns into a 500). -/
def set_var (ctx : Ctx) (name value vtype : String) : Ctx × SetOutcome :=
  match coerceValue vtype value with
  | .ok v => (ctxInsert ctx name v, .ok name v)
  | .error _ => (ctx, .raised statusKwErr)

/-! ## Concrete fixtures used by witnesses and counterexamples -/

/-- An environment in which every external call succeeds. -/
def envOK : SrvEnv := ⟨fun _ => false, fun _ => false, fun _ => false⟩

/-- An environment in which every probe and every construction fails. -/
def envBad : SrvEnv := ⟨fun _ => true, fun _ => false, fun _ => true⟩

/-- An environment in which probes always fail, construction attempt 1
fails and later attempts succeed. -/
def envRetry : SrvEnv := ⟨fun a => a == 1, fun _ => false, fun _ => true⟩

/-- The manager's state at process start: no handle, no attempts. -/
def S0 : SrvState := ⟨0, none⟩

/-- The parsed cell `x = 1`. -/
def cellX : List Stmt := [.assign "x" (.lit (.int 1))]

/-- The parsed cell `y = x + 1`. -/
def cellY : List Stmt := [.assign "y" (.add (.var "x") (.lit (.int 1)))]

/-- The parsed cell `1/0`. -/
def cellDiv : List Stmt := [.exprStmt (.div (.lit (.int 1)) (.lit (.int 0)))]

/-- The parsed cell `z = 99`. -/
def cellZ : List Stmt := [.assign "z" (.lit (.int 99))]

/-- A string of 81 `a` characters: its form exceeds the 80-character
preview cap by one. -/
def s81 : String := String.mk (List.replicate 81 'a')

/-- A value whose `str(...)` raises. -/
def badVal : PyVal := .obj "Weird" none

/-- A three-statement snippet whose middle statement raises. -/
def progW : List Stmt :=
  [.assign "a" (.lit (.int 5)), .raiseErr "ValueError" "boom",
   .assign "b" (.lit (.int 7))]

/-- Number of newline characters in a string (so "one line appended"
is expressible). -/
def lineCount (s : String) : Nat := s.data.count '\n'

/-! ## Helper lemmas about the context and evaluation -/

theorem ctxLookup_insert_self (ctx : Ctx) (n : String) (v : PyVal) :
    ctxLookup (ctxInsert ctx n v) n = some v := by
  induction ctx with
  | nil => simp [ctxInsert, ctxLookup]
  | cons p rest ih =>
      by_cases h : p.1 = n
      · simp [ctxInsert, h, ctxLookup]
      · simp [ctxInsert, h, ctxLookup, ih]

theorem ctxLookup_erase_self (ctx : Ctx) (n : String) :
    ctxLookup (ctxErase ctx n) n = none := by
  induction ctx with
  | nil => rfl
  | cons p rest ih =>
      by_cases h : p.1 = n
      · simp [ctxErase, h, ih]
      · simp [ctxErase, h, ctxLookup, ih]

theorem ctxLookup_erase_ne (ctx : Ctx) (m n : String) (h : m ≠ n) :
    ctxLookup (ctxErase ctx n) m = ctxLookup ctx m := by
  have hnm : ¬(n = m) := fun hc => h hc.symm
  induction ctx with
  | nil => rfl
  | cons p rest ih =>
      by_cases hp : p.1 = n
      · simp [ctxErase, hp, ctxLookup, hnm, ih]
      · by_cases hm : p.1 = m
        · simp [ctxErase, hp, ctxLookup, hm, h]
        · simp [ctxErase, hp, ctxLookup, hm, ih]

theorem execStmts_append_ok (l1 l2 : List Stmt) :
    ∀ (st st1 : EvalSt), execStmts st l1 = (st1, none) →
      execStmts st (l1 ++ l2) = execStmts st1 l2 := by
  induction l1 with
  | nil =>
      intro st st1 h
      simp [execStmts] at h
      simp [h]
  | cons s rest ih =>
      intro st st1 h
      simp only [execStmts] at h
      cases hs : execStmt st s with
      | error e => rw [hs] at h; simp at h
      | ok st' =>
          rw [hs] at h
          simp only [List.cons_append, execStmts, hs]
          exact ih st' st1 h

theorem execStmts_error_decomp (prog : List Stmt) :
    ∀ (st st1 : EvalSt) (e : PyErr), execStmts st prog = (st1, some e) →
      ∃ pre s rest, prog = pre ++ s :: rest ∧
        execStmts st pre = (st1, none) ∧ execStmt st1 s = .error e := by
  induction prog with
  | nil =>
      intro st st1 e h
      simp [execStmts] at h
  | cons s rest ih =>
      intro st st1 e h
      simp only [execStmts] at h
      cases hs : execStmt st s with
      | error e' =>
          rw [hs] at h
          have h1 : st = st1 := congrArg Prod.fst h
          have h2 : e' = e := by
            have hsnd := congrArg Prod.snd h
            simpa using hsnd
          refine ⟨[], s, rest, rfl, by simp [execStmts, h1], ?_⟩
          rw [← h1, hs, h2]
      | ok st' =>
          rw [hs] at h
          obtain ⟨pre, s', rest', hp, h1, h2⟩ := ih st' st1 e h
          refine ⟨s :: pre, s', rest', by simp [hp], ?_, h2⟩
          simp [execStmts, hs, h1]

theorem pySlice_length (s : String) (n : Nat) :
    (pySlice s n).length = min n s.length := by
  obtain ⟨l⟩ := s
  simp [pySlice, String.length_mk, List.length_take]

theorem lineCount_fmtErr (e : PyErr) (hk : lineCount e.kind = 0)
    (hm : lineCount e.msg = 0) : lineCount (fmtErr e) = 1 := by
  simp only [lineCount, fmtErr, String.data_append, List.count_append] at hk hm ⊢
  rw [hk, hm]
  decide

theorem snapIncluded_not_dunder (k : String) (v : PyVal)
    (h : snapIncluded k v = true) : startsDunder k = false := by
  simp only [snapIncluded, Bool.and_eq_true, Bool.not_eq_true'] at h
  exact h.1.1.1

theorem snapshotList_mem_not_dunder (ctx : Ctx) (p : String × VarEntry)
    (hp : p ∈ snapshotList ctx) : startsDunder p.1 = false := by
  induction ctx with
  | nil => simp [snapshotList] at hp
  | cons q rest ih =>
      obtain ⟨k, v⟩ := q
      by_cases hinc : snapIncluded k v = true
      · simp only [snapshotList, hinc, if_true] at hp
        rcases List.mem_cons.mp hp with h1 | h2
        · rw [congrArg Prod.fst h1]
          exact snapIncluded_not_dunder k v hinc
        · exact ih h2
      · simp only [snapshotList, hinc, if_false] at hp
        exact ih hp

theorem snapshotCell_mem_not_dunder (ctx : Ctx) :
    ∀ (vars : List (String × VarEntry)) (p : String × VarEntry),
      snapshotCell ctx = .ok vars → p ∈ vars →
      startsDunder p.1 = false := by
  induction ctx with
  | nil =>
      intro vars p hok hp
      simp only [snapshotCell, Except.ok.injEq] at hok
      rw [← hok] at hp
      simp at hp
  | cons q rest ih =>
      intro vars p hok hp
      obtain ⟨k, v⟩ := q
      by_cases hinc : snapIncluded k v = true
      · simp only [snapshotCell, hinc, if_true] at hok
        cases hstr : pyStr v with
        | error e => rw [hstr] at hok; simp at hok
        | ok s =>
            rw [hstr] at hok
            cases hrest : snapshotCell rest with
            | error e => rw [hrest] at hok; simp at hok
            | ok tail =>
                rw [hrest] at hok
                simp only [Except.ok.injEq] at hok
                rw [← hok] at hp
                rcases List.mem_cons.mp hp with h1 | h2
                · rw [congrArg Prod.fst h1]
                  exact snapIncluded_not_dunder k v hinc
                · exact ih tail p hrest h2
      · simp only [snapshotCell, hinc, if_false] at hok
        exact ih vars p hok hp

/-! ## Claim theorems -/

/-- C1 (corrected). For every `get_srv` call: a handle whose probe
succeeds is returned unchanged with no close or construct side effects;
when the probe fails, a normal return yields a handle freshly constructed
in this call, stored as the instance; and after any normal return the
manager holds exactly the returned handle. But after a raise the manager
is NOT always left Healthy-or-NoHandle: the instance reference either
keeps its previous value — in particular the old handle that just failed
its probe — or points at a freshly constructed handle whose connect step
failed. -/
theorem c1_acquire_state_machine (env : SrvEnv) (s : SrvState) :
    (∀ h, s.inst = some h → env.probeFails h = false →
        get_srv env s = (s, .ok h, ⟨[], []⟩)) ∧
    (∀ h h', s.inst = some h → env.probeFails h = true →
        (get_srv env s).2.1 = .ok h' →
        (get_srv env s).1.inst = some h' ∧
        h' ∈ (get_srv env s).2.2.constructs) ∧
    (∀ h', (get_srv env s).2.1 = .ok h' →
        (get_srv env s).1.inst = some h' ∧
        (h' ∈ (get_srv env s).2.2.constructs ∨
          (s.inst = some h' ∧ env.probeFails h' = false))) ∧
    (∀ e, (get_srv env s).2.1 = .error e →
        (get_srv env s).1.inst = s.inst ∨
        ∃ a, (get_srv env s).1.inst = some a ∧
          a ∈ (get_srv env s).2.2.constructs ∧ env.enterFails a = true) := by
  obtain ⟨att, oinst⟩ := s
  refine ⟨?_, ?_, ?_, ?_⟩
  · intro h hinst hpf
    simp only at hinst
    subst hinst
    simp [get_srv, hpf]
  · intro h h' hinst hpf
    simp only at hinst
    subst hinst
    simp only [get_srv, hpf, if_true, srvRecover]
    by_cases hc : env.constructFails att = true
    · simp [hc]
    · simp only [hc]
      by_cases he : env.enterFails att = true
      · simp [he]
      · simp only [he]
        intro hok
        simp at hok
        simp [← hok]
  · intro h'
    cases oinst with
    | none =>
        simp only [get_srv, srvRecover]
        by_cases hc : env.constructFails att = true
        · simp only [hc, if_true]
          by_cases hc2 : env.constructFails (att + 1) = true
          · simp [hc2]
          · simp only [hc2]
            by_cases he2 : env.enterFails (att + 1) = true
            · simp [he2]
            · simp only [he2]
              intro hok
              simp at hok
              simp [← hok]
        · simp only [hc]
          by_cases he : env.enterFails att = true
          · simp only [he, if_true]
            by_cases hc2 : env.constructFails (att + 1) = true
            · simp [hc2]
            · simp only [hc2]
              by_cases he2 : env.enterFails (att + 1) = true
              · simp [he2]
              · simp only [he2]
                intro hok
                simp at hok
                simp [← hok]
          · simp only [he]
            intro hok
            simp at hok
            simp [← hok]
    | some h =>
        simp only [get_srv, srvRecover]
        by_cases hp : env.probeFails h = true
        · simp only [hp, if_true]
          by_cases hc : env.constructFails att = true
          · simp [hc]
          · simp only [hc]
            by_cases he : env.enterFails att = true
            · simp [he]
            · simp only [he]
              intro hok
              simp at hok
              simp [← hok]
        · simp only [hp]
          intro hok
          simp at hok
          simp [← hok, hp]
  · intro e
    cases oinst with
    | none =>
        simp only [get_srv, srvRecover]
        by_cases hc : env.constructFails att = true
        · simp only [hc, if_true]
          by_cases hc2 : env.constructFails (att + 1) = true
          · simp [hc2]
          · simp only [hc2]
            by_cases he2 : env.enterFails (att + 1) = true
            · simp [he2]
            · simp [he2]
        · simp only [hc]
          by_cases he : env.enterFails att = true
          · simp only [he, if_true]
            by_cases hc2 : env.constructFails (att + 1) = true
            · simp only [hc2]
              intro _
              right
              exact ⟨att, rfl, by simp, he⟩
            · simp only [hc2]
              by_cases he2 : env.enterFails (att + 1) = true
              · simp only [he2]
                intro _
                right
                exact ⟨att + 1, rfl, by simp, he2⟩
              · simp [he2]
          · simp [he]
    | some h =>
        simp only [get_srv, srvRecover]
        by_cases hp : env.probeFails h = true
        · simp only [hp, if_true]
          by_cases hc : env.constructFails att = true
          · simp [hc]
          · simp only [hc]
            by_cases he : env.enterFails att = true
            · simp only [he]
              intro _
              right
              exact ⟨att, rfl, by simp, he⟩
            · simp [he]
        · simp [hp]

/-- Witness for C1: with a live handle whose probe succeeds, `get_srv`
returns that very handle, leaves the state untouched and performs no
close or construct call. -/
theorem c1_acquire_state_machine_witness :
    get_srv envOK ⟨1, some 0⟩ = (⟨1, some 0⟩, .ok 0, ⟨[], []⟩) :=
  (c1_acquire_state_machine envOK ⟨1, some 0⟩).1 0 rfl rfl

/-- Counterexample to C1 as stated: handle 0 fails its probe and the
reconstruction also fails, so `get_srv` raises — and the manager still
references handle 0, whose probe failed: the Broken state the claim says
never survives a call. -/
theorem c1_acquire_state_machine_counterexample :
    (get_srv envBad ⟨1, some 0⟩).2.1 = .error constructErr ∧
    (get_srv envBad ⟨1, some 0⟩).1.inst = some 0 ∧
    envBad.probeFails 0 = true :=
  ⟨rfl, rfl, rfl⟩

/-- C2 (confirmed). If running a submitted snippet raises, `evaluate`
still returns, with exactly the one formatted `<ErrorKind>: <message>`
line appended to the stderr sink, the mapping and sinks exactly as they
were at the failure point (so every binding assigned before the failure
survives), and the snippet decomposes as the successfully executed prefix
followed by the failing statement — nothing after it ran. -/
theorem c2_evaluate_error_contract (ctx : Ctx) (prog : List Stmt)
    (st1 : EvalSt) (e : PyErr)
    (hrun : execCode ⟨ctx, "", ""⟩ prog = (st1, some e)) :
    evaluate ctx prog = ⟨st1.ctx, st1.out, st1.err ++ fmtErr e⟩ ∧
    (∃ pre s rest, prog = pre ++ s :: rest ∧
        execStmts ⟨ctxInsert ctx "__builtins__" builtinsVal, "", ""⟩ pre =
          (st1, none) ∧
        execStmt st1 s = .error e) ∧
    (lineCount e.kind = 0 → lineCount e.msg = 0 →
        lineCount (fmtErr e) = 1) := by
  refine ⟨?_, ?_, fun hk hm => lineCount_fmtErr e hk hm⟩
  · rw [evaluate, hrun]
  · exact execStmts_error_decomp prog _ st1 e hrun

/-- Witness for C2: the snippet `a = 5; raise ValueError("boom"); b = 7`
stops at the raise with `a` bound, and the stderr sink gets the single
line `ValueError: boom`. -/
theorem c2_evaluate_error_contract_witness :
    execCode ⟨[], "", ""⟩ progW =
      (⟨[("__builtins__", builtinsVal), ("a", .int 5)], "", ""⟩,
        some ⟨"ValueError", "boom"⟩) ∧
    evaluate [] progW =
      ⟨[("__builtins__", builtinsVal), ("a", .int 5)], "",
        "" ++ fmtErr ⟨"ValueError", "boom"⟩⟩ :=
  ⟨by decide,
    (c2_evaluate_error_contract [] progW
      ⟨[("__builtins__", builtinsVal), ("a", .int 5)], "", ""⟩
      ⟨"ValueError", "boom"⟩ (by decide)).1⟩

/-- C3 (corrected). `delete_var` has no reserved-name guard: any binding
present under a truthy name — reserved or not — is removed, with all
other bindings untouched; the response always reports success with the
requested name; an absent (`None`) or empty name leaves the mapping
unchanged. -/
theorem c3_delete_var_removes_any_present (ctx : Ctx) (name : Option String) :
    (delete_var ctx name).2 = ⟨"ok", name⟩ ∧
    (∀ n, name = some n → n ≠ "" →
        ctxLookup (delete_var ctx name).1 n = none ∧
        ∀ m, m ≠ n →
          ctxLookup (delete_var ctx name).1 m = ctxLookup ctx m) ∧
    (name = none ∨ name = some "" → (delete_var ctx name).1 = ctx) := by
  refine ⟨?_, ?_, ?_⟩
  · cases name with
    | none => rfl
    | some n =>
        by_cases h : n ≠ "" ∧ (ctxLookup ctx n).isSome
        · simp [delete_var, h]
        · simp [delete_var, h]
  · intro n hn hne
    subst hn
    by_cases hp : (ctxLookup ctx n).isSome
    · have hd : (delete_var ctx (some n)).1 = ctxErase ctx n := by
        simp [delete_var, hne, hp]
      rw [hd]
      exact ⟨ctxLookup_erase_self ctx n,
        fun m hm => ctxLookup_erase_ne ctx m n hm⟩
    · have hd : (delete_var ctx (some n)).1 = ctx := by
        simp [delete_var, hp]
      rw [hd]
      refine ⟨?_, fun m _ => rfl⟩
      cases hl : ctxLookup ctx n with
      | none => rfl
      | some v => rw [hl] at hp; simp at hp
  · intro hcase
    rcases hcase with h | h
    · subst h; rfl
    · subst h; simp [delete_var]

/-- Witness for C3: deleting the reserved binding `gap` from the initial
mapping removes it while reporting success, and leaves `resolve` alone. -/
theorem c3_delete_var_removes_any_present_witness :
    (delete_var initCtx (some "gap")).2 = ⟨"ok", some "gap"⟩ ∧
    ctxLookup (delete_var initCtx (some "gap")).1 "gap" = none ∧
    ctxLookup (delete_var initCtx (some "gap")).1 "resolve" =
      ctxLookup initCtx "resolve" := by
  have h := c3_delete_var_removes_any_present initCtx (some "gap")
  have h2 := h.2.1 "gap" rfl (by decide)
  exact ⟨h.1, h2.1, h2.2 "resolve" (by decide)⟩

/-- Counterexample to C3 as stated: the reserved binding `gap` is present
initially, yet after `delete_var("gap")` it is gone from the mapping —
the operation is not a no-op on reserved names. -/
theorem c3_delete_var_counterexample :
    ctxLookup initCtx "gap" = some (.module "petex_client.gap") ∧
    ctxLookup (delete_var initCtx (some "gap")).1 "gap" = none ∧
    (delete_var initCtx (some "gap")).2 = ⟨"ok", some "gap"⟩ := by
  decide

/-- C4 (corrected). Whenever handle acquisition succeeds, `reset_context`
replaces the whole mapping by the initial reserved bindings PLUS a fresh
live-handle binding `srv` — every user binding is dropped, but the
transient handle reference is re-created, not dropped, so the result is
not exactly the initial mapping. -/
theorem c4_reset_restores_reserved_plus_srv (env : SrvEnv) (S S' : SrvState)
    (ctx : Ctx) (h : Nat) (tr : SrvTrace)
    (hok : get_srv env S = (S', .ok h, tr)) :
    reset_context env S ctx =
      (S', initCtx ++ [("srv", .handle h)], .ok "reset") := by
  rw [reset_context, hok]

/-- Witness for C4: resetting a mapping holding the user binding `u`
yields exactly the three reserved bindings plus `srv` bound to the fresh
handle 0. -/
theorem c4_reset_restores_reserved_plus_srv_witness :
    reset_context envOK S0 [("u", .int 7)] =
      (⟨1, some 0⟩, initCtx ++ [("srv", .handle 0)], .ok "reset") :=
  c4_reset_restores_reserved_plus_srv envOK S0 ⟨1, some 0⟩
    [("u", .int 7)] 0 ⟨[0], []⟩ (by decide)

/-- Counterexample to C4 as stated: after a successful reset the mapping
binds `srv`, which the initial reserved mapping does not — the result is
not exactly the initial reserved bindings. -/
theorem c4_reset_counterexample :
    ctxLookup (reset_context envOK S0 [("u", .int 7)]).2.1 "srv" =
      some (.handle 0) ∧
    ctxLookup initCtx "srv" = none ∧
    (reset_context envOK S0 [("u", .int 7)]).2.1 ≠ initCtx := by
  decide

/-- C5 (confirmed). Running `run_all` on the cells
`x = 1`, `y = x + 1`, `1/0`, `z = 99` against a fresh mapping binds
`x = 1` and `y = 2`, leaves `z` unbound (the failing cell aborts the
rest), reports the division-by-zero kind as the stderr line, and still
returns the accumulated output and variables map. -/
theorem c5_run_all_division_sequence :
    ctxLookup (run_all envOK S0 initCtx [cellX, cellY, cellDiv, cellZ]).2.1
      "x" = some (.int 1) ∧
    ctxLookup (run_all envOK S0 initCtx [cellX, cellY, cellDiv, cellZ]).2.1
      "y" = some (.int 2) ∧
    ctxLookup (run_all envOK S0 initCtx [cellX, cellY, cellDiv, cellZ]).2.1
      "z" = none ∧
    (run_all envOK S0 initCtx [cellX, cellY, cellDiv, cellZ]).2.2 =
      .ok ⟨"", "ZeroDivisionError: division by zero\n",
        [("x", ⟨"int", "1"⟩), ("y", ⟨"int", "2"⟩)]⟩ := by
  refine ⟨?_, ?_, ?_, rfl⟩ <;> decide

/-- C6 (corrected). When the probe fails and the reconstruction also
fails inside `get_srv`, the underlying exception propagates out of
`get_srv` — there is no dedicated `SessionUnavailableError` — and in
`run_cell` it is caught by the same except block as user-code errors, so
the request returns a NORMAL success response whose stderr carries the
formatted error line. The manager is not reset to `NoHandle`: it keeps
the old broken handle reference, and a later call still recovers by
re-probing it and re-attempting construction (which succeeds once
construction works again). -/
theorem c6_acquire_double_failure (env : SrvEnv) (s : SrvState) (h : Nat)
    (ctx : Ctx) (vars : List (String × VarEntry)) (code : List Stmt)
    (hinst : s.inst = some h) (hprobe : env.probeFails h = true)
    (hcon : env.constructFails s.attempt = true)
    (hsnap : snapshotCell ctx = .ok vars) :
    get_srv env s =
      ({ s with attempt := s.attempt + 1 }, .error constructErr,
        ⟨[s.attempt], [h]⟩) ∧
    run_cell env s ctx code =
      ({ s with attempt := s.attempt + 1 }, ctx,
        .ok ⟨"", fmtErr constructErr, vars⟩) ∧
    (env.constructFails (s.attempt + 1) = false →
      env.enterFails (s.attempt + 1) = false →
      (get_srv env { s with attempt := s.attempt + 1 }).2.1 =
        .ok (s.attempt + 1)) := by
  obtain ⟨att, oinst⟩ := s
  simp only at hinst
  subst hinst
  simp only at hcon
  have hsrv : get_srv env ⟨att, some h⟩ =
      (⟨att + 1, some h⟩, .error constructErr, ⟨[att], [h]⟩) := by
    simp [get_srv, srvRecover, hprobe, hcon]
  refine ⟨hsrv, ?_, ?_⟩
  · rw [run_cell, hsrv, hsnap]
  · intro hc2 he2
    simp [get_srv, srvRecover, hprobe, hc2, he2]

/-- Witness for C6: probe of handle 0 fails and construction attempt 1
fails, so `run_cell` returns the plain success body with the error line
in stderr, and the very next `get_srv` succeeds with fresh handle 2 once
construction works. -/
theorem c6_acquire_double_failure_witness :
    run_cell envRetry ⟨1, some 0⟩ initCtx [] =
      (⟨2, some 0⟩, initCtx, .ok ⟨"", fmtErr constructErr, []⟩) ∧
    (get_srv envRetry ⟨2, some 0⟩).2.1 = .ok 2 := by
  have h := c6_acquire_double_failure envRetry ⟨1, some 0⟩ 0 initCtx [] []
    rfl rfl (by decide) (by decide)
  exact ⟨h.2.1, h.2.2 (by decide) rfl⟩

/-- Counterexample to C6 as stated: with both the probe and the
reconstruction failing, the request does NOT fail as a structured error —
`run_cell` returns a normal success response with the message tucked into
stderr — and the manager is NOT left in a clean retryable state: it still
references broken handle 0. -/
theorem c6_acquire_double_failure_counterexample :
    (run_cell envBad ⟨1, some 0⟩ initCtx []).2.2 =
      .ok ⟨"", "Exception: PetexServer construction failed\n", []⟩ ∧
    (run_cell envBad ⟨1, some 0⟩ initCtx []).1 = ⟨2, some 0⟩ ∧
    envBad.probeFails 0 = true := by
  decide

/-- C7 (code bug, evaluated at the failing input). Coercing `"abc"` as
`int` fails and `set_var` leaves the mapping untouched with `n` still
absent — but instead of the intended structured `ConversionError`
response, the handler raises `TypeError`, because it builds the error
response with the invalid keyword `status` (`JSONResponse` takes
`status_code`). -/
theorem c7_set_var_conversion_failure :
    set_var initCtx "n" "abc" "int" = (initCtx, .raised statusKwErr) ∧
    ctxLookup initCtx "n" = none ∧
    coerceValue "int" "abc" =
      .error ⟨"ValueError", "invalid literal for int() with base 10: abc"⟩ := by
  decide

/-- C8 (corrected). Only `list_variables` applies the 80-character cap:
an included binding rendering to more than 80 characters is listed with
exactly the first 77 characters plus "...", and untruncated otherwise.
The variables maps of `run_cell` / `run_all` instead truncate every
rendering to its first 50 characters, with no ellipsis. -/
theorem c8_preview_truncation (k : String) (v : PyVal) (ctx : Ctx)
    (s : String) (hinc : snapIncluded k v = true) (hs : pyStr v = .ok s) :
    snapshotList ((k, v) :: ctx) =
      (k, ⟨pyTypeName v,
        if s.length > 80 then pySlice s 77 ++ "..." else s⟩) ::
        snapshotList ctx ∧
    (s.length > 80 → (pySlice s 77).length = 77) ∧
    (∀ tail, snapshotCell ctx = .ok tail →
        snapshotCell ((k, v) :: ctx) =
          .ok ((k, ⟨pyTypeName v, pySlice s 50⟩) :: tail)) := by
  refine ⟨?_, ?_, ?_⟩
  · simp [snapshotList, hinc, hs]
  · intro hlen
    rw [pySlice_length]
    omega
  · intro tail htail
    simp [snapshotCell, hinc, hs, htail]

/-- Witness for C8: the 81-character string is listed by
`list_variables` with the 77-character prefix plus "...", while the
`run_cell` snapshot lists its bare 50-character prefix. -/
theorem c8_preview_truncation_witness :
    snapshotList [("v", .str s81)] =
      [("v", ⟨"str",
        if s81.length > 80 then pySlice s81 77 ++ "..." else s81⟩)] ∧
    (pySlice s81 77).length = 77 ∧
    snapshotCell [("v", .str s81)] =
      .ok [("v", ⟨"str", pySlice s81 50⟩)] := by
  have h := c8_preview_truncation "v" (.str s81) [] s81 (by decide) rfl
  exact ⟨h.1, h.2.1 (by decide), h.2.2 [] rfl⟩

/-- Counterexample to C8 as stated: in the `run_cell` variables map an
81-character value is previewed as its first 50 characters, not as 77
characters followed by "...". -/
theorem c8_preview_truncation_counterexample :
    snapshotCell [("v", .str s81)] =
      .ok [("v", ⟨"str", String.mk (List.replicate 50 'a')⟩)] ∧
    s81.length > 80 ∧
    String.mk (List.replicate 50 'a') ≠
      String.mk (List.replicate 77 'a') ++ "..." := by
  decide

/-- C9 (corrected). Only `list_variables` recovers per field: an included
binding whose rendering raises is listed as type `"unknown"` with an
empty preview and the rest of the snapshot survives. In the `run_cell` /
`run_all` variables maps the same binding aborts the whole snapshot with
the rendering error (which then escapes the request handler). -/
theorem c9_snapshot_field_recovery (k : String) (v : PyVal) (ctx : Ctx)
    (e : PyErr) (hinc : snapIncluded k v = true)
    (he : pyStr v = .error e) :
    snapshotList ((k, v) :: ctx) =
      (k, ⟨"unknown", ""⟩) :: snapshotList ctx ∧
    snapshotCell ((k, v) :: ctx) = .error e := by
  constructor
  · simp [snapshotList, hinc, he]
  · simp [snapshotCell, hinc, he]

/-- Witness for C9: a value whose `str` raises is listed as
unknown/empty by `list_variables`, while the `run_cell` snapshot of the
same mapping fails wholesale. -/
theorem c9_snapshot_field_recovery_witness :
    snapshotList [("w", badVal)] = [("w", ⟨"unknown", ""⟩)] ∧
    snapshotCell [("w", badVal)] =
      .error ⟨"RuntimeError", "str raised for Weird"⟩ := by
  have h := c9_snapshot_field_recovery "w" badVal []
    ⟨"RuntimeError", "str raised for Weird"⟩ (by decide) rfl
  exact ⟨h.1, h.2⟩

/-- Counterexample to C9 as stated: one binding whose rendering raises
makes the whole `run_cell` request fail — the entry is not substituted
with an unknown/empty pair there. -/
theorem c9_snapshot_field_recovery_counterexample :
    (run_cell envOK S0 [("w", badVal)] []).2.2 =
      .error ⟨"RuntimeError", "str raised for Weird"⟩ ∧
    snapshotCell [("w", badVal)] =
      .error ⟨"RuntimeError", "str raised for Weird"⟩ := by
  decide

/-- C10 (confirmed). A binding whose name starts with two underscores —
such as the `__builtins__` binding that `exec` injects into the shared
mapping — never appears in any snapshot: neither in the variables maps of
`run_cell` / `run_all` nor in `list_variables`; and `exec` does inject
`__builtins__` into the mapping it runs against. -/
theorem c10_dunder_names_excluded (ctx : Ctx) (k : String)
    (hk : startsDunder k = true) :
    (∀ vars, snapshotCell ctx = .ok vars → ∀ p ∈ vars, p.1 ≠ k) ∧
    (∀ p ∈ snapshotList ctx, p.1 ≠ k) ∧
    ctxLookup (ctxInsert ctx "__builtins__" builtinsVal) "__builtins__" =
      some builtinsVal := by
  refine ⟨?_, ?_, ctxLookup_insert_self ctx _ _⟩
  · intro vars hok p hp hcontra
    have hmem := snapshotCell_mem_not_dunder ctx vars p hok hp
    rw [hcontra, hk] at hmem
    cases hmem
  · intro p hp hcontra
    have hmem := snapshotList_mem_not_dunder ctx p hp
    rw [hcontra, hk] at hmem
    cases hmem

/-- Witness for C10: `__builtins__` is a dunder name, the injection into
the mapping is visible, and the sole snapshot entry of a mapping holding
`__builtins__` and `x` is not the dunder binding. -/
theorem c10_dunder_names_excluded_witness :
    startsDunder "__builtins__" = true ∧
    ctxLookup
      (ctxInsert [("__builtins__", builtinsVal), ("x", .int 1)]
        "__builtins__" builtinsVal) "__builtins__" = some builtinsVal :=
  ⟨by decide,
    (c10_dunder_names_excluded [("__builtins__", builtinsVal), ("x", .int 1)]
      "__builtins__" (by decide)).2.2⟩

end WorkflowAgent
